import Mathlib

/-!
Verification of the crm-system repository against its specification.

The definitions below are a shallow embedding of the Python sources:

* `shared_python/kafka_client.py` — the consumer retry/DLQ controller
  (`KafkaConsumer._process_with_retry`) and the per-message body of the
  consumer loop (`KafkaConsumer.start`);
* `shared_python/managers.py` — `VisibilityScopedManager.for_user`;
* `crm_project/schema.py` — `Query.resolve_customers`;
* `companies/models.py` and `users/models.py` — the tenant hierarchy and
  the derived visibility scope;
* `users/views.py` and `shared_python/jwt_auth.py` — token issuing and
  principal extraction;
* `logs/management/commands/consume_events.py` — the audit handler;
* `customers/views.py` — the internal coordinates endpoint;
* `customers/mutations.py` — the create-customer mutation.

JSON values are modelled by `JVal`; Python dicts by insertion-ordered
association lists.  Machine floats of the backoff computation are modelled
by exact rationals (all constants of interest — powers of two times the
base, and the cap — are exactly representable IEEE doubles, and `min` on
them is exact).  Django querysets are modelled by lists of records.
-/

/-- A JSON value as decoded by Python's `json.loads`: JSON integers and
floats are kept distinct because the code applies `isinstance(_, int)`
checks.  (Python's `bool` is a subclass of `int`, which `jAsInt` below
reflects.) -/
inductive JVal where
  | jnull
  | jbool (b : Bool)
  | jint (n : Int)
  | jfloat (q : ℚ)
  | jstr (s : String)
  | jlist (xs : List JVal)

/-- A decoded Python dict (insertion-ordered association list). -/
abbrev PyDict := List (String × JVal)

/-- `d.get(k)` — first binding of `k`, if any. -/
def jget (d : PyDict) (k : String) : Option JVal :=
  List.lookup k d

/-- `d.get(k, default)`. -/
def jgetD (d : PyDict) (k : String) (v : JVal) : JVal :=
  (jget d k).getD v

/-- `d[k] = v` — replace the binding if the key is present, else append
(Python dicts keep insertion order). -/
def jset (d : PyDict) (k : String) (v : JVal) : PyDict :=
  if d.any (fun kv => kv.1 == k) then
    d.map (fun kv => if kv.1 == k then (k, v) else kv)
  else
    d ++ [(k, v)]

/-- `isinstance(v, str)`: the underlying string. -/
def jAsStr : JVal → Option String
  | .jstr s => some s
  | _ => none

/-- `isinstance(v, int)`: the underlying integer.  Python's `True`/`False`
are instances of `int` (1 and 0). -/
def jAsInt : JVal → Option Int
  | .jint n => some n
  | .jbool b => some (if b then 1 else 0)
  | _ => none

/-! ### Retry controller — `KafkaConsumer._process_with_retry`

A handler raises at each invocation one of the outcomes below, or returns
normally (`ok`).  The runtime distinguishes `RetryableError`,
`PermanentError` and any other exception (`unknownExc`), the latter being
treated exactly like `RetryableError` (kafka_client.py lines 335-379). -/

/-- Outcome of one handler invocation. -/
inductive HandlerResult where
  | ok
  | retryable (reason : String)
  | permanent (reason : String)
  | unknownExc (reason : String)

/-- A handler's behaviour across successive invocations on the same
message: the result of the attempt-numbered call. -/
abbrev Handler := Nat → HandlerResult

/-- Constructor arguments of `KafkaConsumer` that the controller reads. -/
structure ConsumerCfg where
  groupId : String
  maxRetries : Nat
  retryBackoffBase : ℚ
  retryBackoffMax : ℚ

/-- The metrics counters dict of the consumer. -/
structure Metrics where
  processed : Nat
  retried : Nat
  failed : Nat
  dlq : Nat
deriving DecidableEq, Repr

/-- The DLQ envelope handed to `DeadLetterQueueProducer.send_to_dlq`
(kafka_client.py lines 96-137).  The coordinate fields are the raw values
read from the event dict with `value.get(key, default)`. -/
structure DlqRecord where
  originalTopic : JVal
  originalPartition : JVal
  originalOffset : JVal
  originalPayload : PyDict
  failureReason : String
  retryCount : Nat
  consumerGroup : String

/-- `min(self.retry_backoff_base * (2 ** attempt), self.retry_backoff_max)`
(kafka_client.py lines 268 and 340), written as Python's `min` computes
it: the first argument when it is ≤ the second, else the second (this is
`min` on ℚ, see `backoffOf_eq_min`). -/
def backoffOf (cfg : ConsumerCfg) (attempt : Nat) : ℚ :=
  if cfg.retryBackoffBase * 2 ^ attempt ≤ cfg.retryBackoffMax then
    cfg.retryBackoffBase * 2 ^ attempt
  else cfg.retryBackoffMax

/-- Everything observable about one `_process_with_retry` call: the boolean
it returns, how often the handler ran, the backoff sleeps in order, the DLQ
records produced, and the counter increments. -/
structure RunResult where
  success : Bool
  invocations : Nat
  sleeps : List ℚ
  dlqRecords : List DlqRecord
  metrics : Metrics

/-- The DLQ envelope built inside `_process_with_retry` for the message
`value` (coordinates are `value.get('_topic'/'_partition'/'_offset')` with
the defaults of lines 238-240). -/
def dlqFor (cfg : ConsumerCfg) (value : PyDict) (reason : String)
    (retryCount : Nat) : DlqRecord :=
  { originalTopic := jgetD value "_topic" (.jstr "unknown")
    originalPartition := jgetD value "_partition" (.jint (-1))
    originalOffset := jgetD value "_offset" (.jint (-1))
    originalPayload := value
    failureReason := reason
    retryCount := retryCount
    consumerGroup := cfg.groupId }

/-- The loop `for attempt in range(self.max_retries + 1)` of
`_process_with_retry`, entered at `attempt` with `fuel` iterations left
(so the whole call is `fuel = max_retries + 1`, `attempt = 0`; falling off
the loop returns `False`, line 381).  Effects are aggregated functionally:
the current iteration's sleep/counter/DLQ contribution is prepended to the
recursive remainder, which preserves both the totals and the order of the
sleeps and DLQ records. -/
def runAttempts (cfg : ConsumerCfg) (value : PyDict) (h : Handler) :
    Nat → Nat → RunResult
  | 0, _ =>
    { success := false, invocations := 0, sleeps := [], dlqRecords := []
      metrics := ⟨0, 0, 0, 0⟩ }
  | fuel + 1, attempt =>
    match h attempt with
    | .ok =>
      { success := true, invocations := 1, sleeps := [], dlqRecords := []
        metrics := ⟨1, 0, 0, 0⟩ }
    | .retryable reason =>
      if attempt < cfg.maxRetries then
        let rest := runAttempts cfg value h fuel (attempt + 1)
        { success := rest.success
          invocations := rest.invocations + 1
          sleeps := backoffOf cfg attempt :: rest.sleeps
          dlqRecords := rest.dlqRecords
          metrics := { rest.metrics with retried := rest.metrics.retried + 1 } }
      else
        { success := false, invocations := 1, sleeps := []
          dlqRecords := [dlqFor cfg value reason cfg.maxRetries]
          metrics := ⟨0, 1, 0, 1⟩ }
    | .permanent reason =>
      { success := false, invocations := 1, sleeps := []
        dlqRecords := [dlqFor cfg value reason 0]
        metrics := ⟨0, 0, 1, 1⟩ }
    | .unknownExc reason =>
      if attempt < cfg.maxRetries then
        let rest := runAttempts cfg value h fuel (attempt + 1)
        { success := rest.success
          invocations := rest.invocations + 1
          sleeps := backoffOf cfg attempt :: rest.sleeps
          dlqRecords := rest.dlqRecords
          metrics := { rest.metrics with retried := rest.metrics.retried + 1 } }
      else
        { success := false, invocations := 1, sleeps := []
          dlqRecords := [dlqFor cfg value reason cfg.maxRetries]
          metrics := ⟨0, 1, 0, 1⟩ }

/-- `KafkaConsumer._process_with_retry(msg, value)` with handler behaviour
`h` (kafka_client.py lines 231-381). -/
def process_with_retry (cfg : ConsumerCfg) (value : PyDict) (h : Handler) :
    RunResult :=
  runAttempts cfg value h (cfg.maxRetries + 1) 0

/-! ### Consumer loop body — `KafkaConsumer.start`

One polled, non-error Kafka record (kafka_client.py lines 411-440).  The
body is either not valid UTF-8 JSON (`json.loads` raises, caught by the
outer `except Exception` which only logs — no DLQ send, no commit) or a
decoded dict, which is enriched with `_offset`/`_partition`/`_topic` and a
defaulted `event_type`, then run through the retry controller; the offset
is committed exactly when `_process_with_retry` returned `True`. -/

/-- The value bytes of a polled record, after the decode attempt. -/
inductive MsgBody where
  | malformed
  | decoded (v : PyDict)

/-- A polled Kafka message. -/
structure KMsg where
  topic : String
  partition : Int
  offset : Int
  body : MsgBody

/-- What one iteration of the `start` loop did with the message. -/
structure StepOutcome where
  committed : Bool
  handlerInvocations : Nat
  dlqRecords : List DlqRecord
  metrics : Metrics

/-- The per-message body of `KafkaConsumer.start` (lines 411-440). -/
def consume_step (cfg : ConsumerCfg) (m : KMsg) (h : Handler) : StepOutcome :=
  match m.body with
  | .malformed =>
    -- json.loads raises; the outer `except Exception` logs and continues,
    -- and the offset is not committed.
    { committed := false, handlerInvocations := 0, dlqRecords := []
      metrics := ⟨0, 0, 0, 0⟩ }
  | .decoded v =>
    let v := jset v "_offset" (.jint m.offset)
    let v := jset v "_partition" (.jint m.partition)
    let v := jset v "_topic" (.jstr m.topic)
    let v := if (jget v "event_type").isSome then v
             else jset v "event_type" (.jstr m.topic)
    let r := process_with_retry cfg v h
    { committed := r.success
      handlerInvocations := r.invocations
      dlqRecords := r.dlqRecords
      metrics := r.metrics }

/-! ### Visibility-scoped reading

`VisibilityScopedManager.for_user` (managers.py lines 29-52) and the CRM
GraphQL resolver `Query.resolve_customers` (crm_project/schema.py lines
26-53).  Company IDs are modelled as strings (they are UUID strings in the
token and in the JSON visibility column); a stored record carries its
`visible_to` list. -/

/-- A stored record carrying a visibility list (the customer's
`visibility_list` M2M in managers.py, `visible_to_company_ids` in the CRM
schema). -/
structure VisRecord where
  rid : Nat
  visibleTo : List String
deriving DecidableEq

/-- `VisibilityScopedManager.for_user(visible_company_ids, user_role)`
over the stored records: `if not visible_company_ids or user_role ==
'SYSTEM_ADMIN'` return everything, else filter to records whose visibility
list meets the given IDs (`visibility_list__id__in`), deduplicated
(`.distinct()`). -/
def for_user (records : List VisRecord) (visibleCompanyIds : List String)
    (userRole : Option String) : List VisRecord :=
  if visibleCompanyIds.isEmpty || userRole == some "SYSTEM_ADMIN" then
    records
  else
    (records.filter
      (fun r => r.visibleTo.any (fun c => visibleCompanyIds.contains c))).dedup

/-- The principal attached to a request by the JWT middleware, as read by
the CRM resolvers. -/
structure RequestUser where
  isAuthenticated : Bool
  role : String
  visibleCompanyIds : List String

/-- `Query.resolve_customers` (crm_project/schema.py lines 26-53):
anonymous → none; `SYSTEM_ADMIN` → all; empty visible list → none;
otherwise an OR of `visible_to_company_ids__contains=[company_id]` over
the user's visible IDs, deduplicated (`.distinct()`). -/
def resolve_customers (records : List VisRecord) (user : RequestUser) :
    List VisRecord :=
  if user.isAuthenticated = false then []
  else if user.role == "SYSTEM_ADMIN" then records
  else if user.visibleCompanyIds.isEmpty then []
  else
    (records.filter
      (fun r => user.visibleCompanyIds.any (fun c => r.visibleTo.contains c))).dedup

/-! ### Tenant hierarchy and derived visibility scope

`Company.get_descendant_ids` / `Company.get_visibility_scope`
(companies/models.py lines 33-48) and `User.get_visible_company_ids`
(users/models.py lines 88-105).  The company table is a list of
`(id, parent)` rows; the BFS queue loop is given fuel `|companies| + 1`,
which is never exhausted on an acyclic forest (each company has one parent
row, so it is enqueued at most once — the repository's invariant). -/

/-- A row of the company table. -/
structure CompanyRow where
  cid : Nat
  parent : Option Nat
deriving DecidableEq

/-- `self.children.values_list('id', flat=True)` /
`Company.objects.filter(parent_id=child_id)`. -/
def childrenIds (cos : List CompanyRow) (cid : Nat) : List Nat :=
  (cos.filter (fun c => c.parent == some cid)).map (fun c => c.cid)

/-- The `while queue:` loop of `get_descendant_ids`: pop the front, append
it to the result, enqueue its children. -/
def descendantsLoop (cos : List CompanyRow) : Nat → List Nat → List Nat
  | 0, _ => []
  | _ + 1, [] => []
  | fuel + 1, cid :: queue =>
    cid :: descendantsLoop cos fuel (queue ++ childrenIds cos cid)

/-- `Company.get_descendant_ids` (companies/models.py lines 33-44):
all child company IDs recursively, excluding the company itself. -/
def get_descendant_ids (cos : List CompanyRow) (cid : Nat) : List Nat :=
  descendantsLoop cos (cos.length + 1) (childrenIds cos cid)

/-- `Company.get_visibility_scope` (companies/models.py lines 46-48):
own ID plus all descendant IDs. -/
def get_visibility_scope (cos : List CompanyRow) (cid : Nat) : List Nat :=
  cid :: get_descendant_ids cos cid

/-- The fields of the identity-service `User` that
`get_visible_company_ids` reads. -/
structure IdentityUser where
  role : String
  company : Option Nat

/-- `User.get_visible_company_ids` (users/models.py lines 88-105). -/
def get_visible_company_ids (cos : List CompanyRow) (u : IdentityUser) :
    List Nat :=
  if u.role == "SYSTEM_ADMIN" then []
  else
    match u.company with
    | none => []
    | some cid =>
      if u.role == "COMPANY_ADMIN" then get_descendant_ids cos cid
      else [cid]

/-! ### Token issuing and principal extraction

`create_jwt_token` (users/views.py lines 19-31) builds the claim dict;
`get_user_from_token` (jwt_auth.py lines 88-117) turns a decoded claim
dict into a principal.  Signature and expiry checking (`decode_jwt_token`)
are not modelled: the theorems speak about the payload that a successful
decode hands to lines 98-117, which is exactly the claim dict for a token
this identity service issued.  `uuid.UUID` validation is abstracted by a
predicate argument `isUuid`; string formatting aside, the payload handling
is verbatim.  (Claim values of shapes `create_jwt_token` never produces —
e.g. a non-string `role` — are outside this model.) -/

/-- The fields of the identity-service `User` that `create_jwt_token`
serializes (`str(user.id)`, `str(user.company.id) if user.company else
None`). -/
structure TokenUser where
  idStr : String
  email : String
  role : String
  companyIdStr : Option String

/-- The claim dict built by `create_jwt_token` (users/views.py lines
23-30); `exp` and `iat` are the two timestamps. -/
def create_jwt_payload (u : TokenUser) (exp iat : Int) : PyDict :=
  [ ("user_id", .jstr u.idStr)
  , ("email", .jstr u.email)
  , ("role", .jstr u.role)
  , ("company_id", match u.companyIdStr with
                   | some c => .jstr c
                   | none => .jnull)
  , ("exp", .jint exp)
  , ("iat", .jint iat) ]

/-- The principal `get_user_from_token` returns: Django's anonymous user,
or an `AuthenticatedUser` (jwt_auth.py lines 13-40). -/
inductive PrincipalResult where
  | anonymous
  | authenticated (userId : String) (email : Option String) (role : String)
      (companyId : Option String) (visibleCompanyIds : List JVal)

/-- Lines 94-117 of `get_user_from_token`, applied to a successfully
decoded payload: a falsy payload or missing/falsy `user_id` yields the
anonymous user; a `uuid.UUID` failure on `user_id` or on a truthy
`company_id` raises `ValueError`, caught as anonymous;
`visible_company_ids` is read with default `[]` (and `or []` in the
`AuthenticatedUser` constructor maps a falsy value to `[]`). -/
def get_user_from_payload (isUuid : String → Bool) (p : PyDict) :
    PrincipalResult :=
  if p.isEmpty then .anonymous
  else
    match jget p "user_id" with
    | some (.jstr uid) =>
      if uid == "" then .anonymous
      else if isUuid uid = false then .anonymous
      else
        let email : Option String :=
          match jget p "email" with
          | some (.jstr s) => some s
          | _ => none
        let role : String :=
          match jget p "role" with
          | some (.jstr s) => s
          | _ => "USER"
        let companyId : Option String :=
          match jget p "company_id" with
          | some (.jstr s) => some s
          | _ => none
        let companyOk : Bool :=
          match companyId with
          | some c => if c == "" then true else isUuid c
          | none => true
        if companyOk = false then .anonymous
        else
          let visible : List JVal :=
            match jget p "visible_company_ids" with
            | some (.jlist xs) => xs
            | _ => []
          .authenticated uid email role companyId visible
    | _ => .anonymous

/-! ### Audit handler — `Command.handle_event`

consume_events.py lines 35-84.  The audit store is the `AuditLog` table,
modelled as a list of rows; a unique constraint on
`(kafka_topic, kafka_partition, kafka_offset)` backs the pre-insert
existence check.  The final `except Exception` wrapper re-classifies any
raise by sniffing the lowercased message for the substrings
`connection` / `database` / `operational` / `timeout`; Python's f-string
rendering of values is approximated by `pyStr` below (exact on strings,
integers, booleans and `None`, which is all the code puts in messages). -/

/-- A row of the `AuditLog` table (logs/models.py lines 6-31). -/
structure AuditRow where
  eventType : JVal
  payload : PyDict
  companyId : Option JVal
  kafkaTopic : String
  kafkaPartition : Int
  kafkaOffset : Int

/-- The error the handler raises across the runtime boundary. -/
inductive AuditErr where
  | retryable (msg : String)
  | permanent (msg : String)

/-- Python `str()` of a JSON scalar, as interpolated into f-strings. -/
def pyStr : JVal → String
  | .jnull => "None"
  | .jbool b => if b then "True" else "False"
  | .jint n => toString n
  | .jfloat q => toString q
  | .jstr s => s
  | .jlist _ => "[...]"

/-- Case-insensitive substring test (`needle in msg.lower()` for lowercase
needles). -/
def strContainsCI (hay needle : String) : Bool :=
  decide (List.IsInfix needle.data (hay.map Char.toLower).data)

/-- The `except Exception` wrapper of `handle_event` (lines 74-84):
messages that look like database trouble become `RetryableError`,
everything else `PermanentError`. -/
def classifyAuditFailure (msg : String) : AuditErr :=
  if strContainsCI msg "connection" || strContainsCI msg "database" ||
      strContainsCI msg "operational" || strContainsCI msg "timeout" then
    .retryable ("Database error storing audit log: " ++ msg)
  else
    .permanent ("Error storing audit log: " ++ msg)

/-- `Command.handle_event(event)` over the audit store (lines 44-84):
extract metadata with defaults, validate its types (else raise
`PermanentError`, re-classified by the wrapper), return unchanged on a
duplicate `(topic, partition, offset)`, else append the new immutable
row.  (In this pure model the ORM itself never fails, so the only raise
reaching the wrapper is the validation error.) -/
def handle_event (store : List AuditRow) (event : PyDict) :
    Except AuditErr (List AuditRow) :=
  let eventType := jgetD event "event_type" (.jstr "unknown")
  let companyId := jget event "company_id"
  let kafkaOffset := jgetD event "_offset" (.jint 0)
  let kafkaPartition := jgetD event "_partition" (.jint 0)
  let kafkaTopic := jgetD event "_topic" (.jstr "unknown")
  match jAsStr kafkaTopic, jAsInt kafkaPartition, jAsInt kafkaOffset with
  | some t, some p, some o =>
    if store.any (fun r =>
        r.kafkaTopic == t && r.kafkaPartition == p && r.kafkaOffset == o) then
      .ok store
    else
      .ok (store ++ [{ eventType := eventType, payload := event
                       companyId := companyId, kafkaTopic := t
                       kafkaPartition := p, kafkaOffset := o }])
  | _, _, _ =>
    .error (classifyAuditFailure
      ("Invalid Kafka metadata: topic=" ++ pyStr kafkaTopic ++
       ", partition=" ++ pyStr kafkaPartition ++
       ", offset=" ++ pyStr kafkaOffset))

/-! ### Internal coordinates endpoint — `update_customer_coordinates`

customers/views.py lines 13-58.  `float(x)` raises `TypeError` on `None`
(so on a missing key, because the code reads with `data.get(...)`) and on
lists, and `ValueError` on non-numeric strings; only
`(ValueError, KeyError, json.JSONDecodeError)` are caught, so a
`TypeError` escapes the view (Django then answers 500). -/

/-- A customer row, restricted to the fields the view touches. -/
structure GeoCustomer where
  gid : Nat
  latitude : Option ℚ
  longitude : Option ℚ
  geocodedAtSet : Bool
deriving DecidableEq

/-- The request body: invalid JSON, or a decoded object. -/
inductive ReqBody where
  | notJson
  | json (data : PyDict)

/-- The exceptions `float()` can raise. -/
inductive FloatErr where
  | typeError
  | valueError
deriving DecidableEq

/-- Decimal digits to a natural number (`none` on a non-digit or on the
empty string). -/
def digitsToNat : List Char → Option Nat
  | [] => none
  | cs =>
    cs.foldl
      (fun acc c =>
        match acc with
        | none => none
        | some n => if c.isDigit then some (n * 10 + (c.toNat - 48)) else none)
      (some 0)

/-- Python `float()` of a decimal string: optional sign, then digits with
an optional decimal point (`"1."` and `".5"` are accepted, `"."` and
non-numeric text are not).  Exponent and infinity spellings are outside
this model; no claim depends on them. -/
def parseFloat (s : String) : Option ℚ :=
  let s := s.trim
  let (sign, rest) : ℚ × String :=
    if s.startsWith "-" then (-1, s.drop 1)
    else if s.startsWith "+" then (1, s.drop 1)
    else (1, s)
  match rest.splitOn "." with
  | [ip] => (digitsToNat ip.data).map (fun n => sign * n)
  | [ip, fp] =>
    match digitsToNat ip.data, digitsToNat fp.data with
    | some n, some f =>
      some (sign * ((n : ℚ) + (f : ℚ) / 10 ^ fp.length))
    | some n, none => if fp.isEmpty then some (sign * n) else none
    | none, some f =>
      if ip.isEmpty then some (sign * ((f : ℚ) / 10 ^ fp.length)) else none
    | none, none => none
  | _ => none

/-- `float(data.get(key))`: `data.get` yields `None` on a missing key, and
`float(None)` raises `TypeError`. -/
def pyFloat : Option JVal → Except FloatErr ℚ
  | none => .error .typeError
  | some .jnull => .error .typeError
  | some (.jint n) => .ok n
  | some (.jfloat q) => .ok q
  | some (.jbool b) => .ok (if b then 1 else 0)
  | some (.jstr s) =>
    match parseFloat s with
    | some q => .ok q
    | none => .error .valueError
  | some (.jlist _) => .error .typeError

/-- What the view run produces: an HTTP response with a status, or an
uncaught `TypeError` (which Django surfaces as a 500 server error). -/
inductive ViewOutcome where
  | response (status : Nat)
  | uncaughtTypeError
deriving DecidableEq

/-- `update_customer_coordinates(request, customer_id)` over the customer
table (customers/views.py lines 29-58): 404 on a missing record; 400 when
`json.loads` raises or `float()` raises `ValueError`; an uncaught
`TypeError` when `float()` gets `None` (missing key) or another
non-convertible type; else the coordinates and `geocoded_at` are set and
the view answers 200. -/
def update_customer_coordinates (db : List GeoCustomer) (customerId : Nat)
    (body : ReqBody) : ViewOutcome × List GeoCustomer :=
  match db.find? (fun c => c.gid == customerId) with
  | none => (.response 404, db)
  | some _ =>
    match body with
    | .notJson => (.response 400, db)
    | .json data =>
      match pyFloat (jget data "latitude") with
      | .error .typeError => (.uncaughtTypeError, db)
      | .error .valueError => (.response 400, db)
      | .ok lat =>
        match pyFloat (jget data "longitude") with
        | .error .typeError => (.uncaughtTypeError, db)
        | .error .valueError => (.response 400, db)
        | .ok lon =>
          (.response 200,
           db.map (fun c =>
             if c.gid == customerId then
               { c with latitude := some lat, longitude := some lon
                        geocodedAtSet := true }
             else c))

/-! ### Create-customer mutation — `CreateCustomer.mutate`

customers/mutations.py lines 40-73.  Company IDs are the strings the code
produces with `str(...)`; `list(set(visibility_ids))` keeps exactly the
distinct elements (in an unspecified order), modelled by `List.dedup`. -/

/-- The request principal fields read by the mutation. -/
structure MutationUser where
  isAuthenticated : Bool
  companyId : Option String

/-- The mutation input fields that determine visibility
(`visibility_company_ids` is an optional GraphQL list; `none` and `some
[]` are both falsy in the `if input.visibility_company_ids:` guard). -/
structure CreateInput where
  name : String
  visibilityCompanyIds : Option (List String)

/-- The created customer's provenance fields. -/
structure CreatedCustomer where
  name : String
  createdByCompanyId : String
  visibleToCompanyIds : List String
deriving DecidableEq

/-- The two `raise Exception(...)` guards of the mutation. -/
inductive MutationErr where
  | authRequired
  | companyRequired
deriving DecidableEq

/-- `CreateCustomer.mutate` (customers/mutations.py lines 40-73), up to
the persisted record: reject unauthenticated users and users without a
company (`if not user.company_id`, which is also true of an empty-string
ID); seed `visibility_ids` with the creator's company ID, extend it with
any input IDs, and store the distinct members. -/
def createCustomer_mutate (user : MutationUser) (input : CreateInput) :
    Except MutationErr CreatedCustomer :=
  if user.isAuthenticated = false then .error .authRequired
  else
    match user.companyId with
    | none => .error .companyRequired
    | some cid =>
      if cid == "" then .error .companyRequired
      else
        let visibilityIds :=
          [cid] ++
            (match input.visibilityCompanyIds with
             | some l => if l.isEmpty then [] else l
             | none => [])
        .ok { name := input.name
              createdByCompanyId := cid
              visibleToCompanyIds := visibilityIds.dedup }

/-! ## Theorems -/

/-- The branchy `backoffOf` is the lattice `min` of the two Python
arguments. -/
theorem backoffOf_eq_min (cfg : ConsumerCfg) (attempt : Nat) :
    backoffOf cfg attempt =
      min (cfg.retryBackoffBase * 2 ^ attempt) cfg.retryBackoffMax := by
  rw [backoffOf, min_def]

/-- The retry loop invokes the handler at most once per remaining
iteration. -/
theorem runAttempts_invocations_le (cfg : ConsumerCfg) (value : PyDict)
    (h : Handler) : ∀ fuel attempt,
    (runAttempts cfg value h fuel attempt).invocations ≤ fuel := by
  intro fuel
  induction fuel with
  | zero => intro attempt; simp [runAttempts]
  | succ n ih =>
    intro attempt
    rcases hh : h attempt with _ | r | r | r <;>
      simp only [runAttempts, hh] <;> try simp
    · split
      · exact Nat.succ_le_succ (ih (attempt + 1))
      · simp
    · split
      · exact Nat.succ_le_succ (ih (attempt + 1))
      · simp

/-- The sleeps performed by the retry loop entered at `attempt` are the
backoffs of the consecutive attempts starting there. -/
theorem runAttempts_sleeps_range (cfg : ConsumerCfg) (value : PyDict)
    (h : Handler) : ∀ fuel attempt, ∃ k,
    (runAttempts cfg value h fuel attempt).sleeps =
      (List.range' attempt k).map (backoffOf cfg) := by
  intro fuel
  induction fuel with
  | zero => intro attempt; exact ⟨0, by simp [runAttempts]⟩
  | succ n ih =>
    intro attempt
    rcases hh : h attempt with _ | r | r | r <;> simp only [runAttempts, hh]
    · exact ⟨0, by simp⟩
    · split
      · obtain ⟨k, hk⟩ := ih (attempt + 1)
        exact ⟨k + 1, by simp [hk, List.range'_succ]⟩
      · exact ⟨0, by simp⟩
    · exact ⟨0, by simp⟩
    · split
      · obtain ⟨k, hk⟩ := ih (attempt + 1)
        exact ⟨k + 1, by simp [hk, List.range'_succ]⟩
      · exact ⟨0, by simp⟩

/-- C1, counterexample: a non-admin principal with an empty visible-tenant
set does NOT get the empty result from `VisibilityScopedManager.for_user`
— the manager treats the empty list as "no filter" and returns every
record, here one whose `visible_to` does not meet the principal's (empty)
scope at all. -/
theorem claim_C1_counterexample :
    for_user [⟨1, ["X"]⟩] [] (some "USER") = [⟨1, ["X"]⟩] ∧
    ([(⟨1, ["X"]⟩ : VisRecord)] ≠ []) ∧
    some "USER" ≠ some "SYSTEM_ADMIN" := by decide

/-- C1, amended: through the CRM GraphQL resolver
(`Query.resolve_customers`) an authenticated principal observes a record
iff it is a SYSTEM_ADMIN or its visible tenant IDs meet the record's
`visible_to` (so an authenticated non-admin with empty scope gets the
empty result there); `VisibilityScopedManager.for_user`, however, returns
every record whenever the visible-ID list is empty, whatever the role. -/
theorem claim_C1_amended_thm :
    (∀ (records : List VisRecord) (user : RequestUser) (r : VisRecord),
       user.isAuthenticated = true →
       (r ∈ resolve_customers records user ↔
         r ∈ records ∧ (user.role = "SYSTEM_ADMIN" ∨
           ∃ c ∈ user.visibleCompanyIds, c ∈ r.visibleTo))) ∧
    (∀ (records : List VisRecord) (role : Option String),
       for_user records [] role = records) := by
  constructor
  · intro records user r hauth
    rw [resolve_customers]
    simp only [hauth]
    by_cases hadmin : user.role = "SYSTEM_ADMIN"
    · simp [hadmin]
    · have hbeq : (user.role == "SYSTEM_ADMIN") = false := by
        simpa using hadmin
      by_cases hemp : user.visibleCompanyIds.isEmpty
      · have hnil : user.visibleCompanyIds = [] := by
          simpa [List.isEmpty_iff] using hemp
        simp [hbeq, hemp, hadmin, hnil]
      · simp only [hbeq, hemp]
        simp [List.mem_dedup, List.mem_filter, List.any_eq_true, hadmin]
  · intro records role
    simp [for_user]

/-- C1, witness: a concrete instance of the resolver equivalence — an
authenticated plain USER whose single visible tenant appears in the
record's visibility list observes the record. -/
theorem claim_C1_witness :
    ((⟨1, ["A"]⟩ : VisRecord) ∈
        resolve_customers [⟨1, ["A"]⟩] ⟨true, "USER", ["A"]⟩ ↔
      (⟨1, ["A"]⟩ : VisRecord) ∈ ([⟨1, ["A"]⟩] : List VisRecord) ∧
        (("USER" : String) = "SYSTEM_ADMIN" ∨
          ∃ c ∈ (["A"] : List String), c ∈ (["A"] : List String))) :=
  claim_C1_amended_thm.1 [⟨1, ["A"]⟩] ⟨true, "USER", ["A"]⟩ ⟨1, ["A"]⟩ rfl

/-- C2: the code evaluated at a failing input.  A message whose handler
raises `PermanentError` reaches the terminal DLQ-accepted outcome (exactly
one DLQ record, with `retry_count = 0`), yet the consumer loop does NOT
commit the offset: `_process_with_retry` returns `False` for DLQ routes
and `start` commits only on `True` — contrary to the claim (and to the
code's own comment "including DLQ sends"). -/
theorem claim_C2_code_eval :
    (consume_step ⟨"audit-group", 3, 2, 60⟩
        ⟨"crm.customer.created", 0, 100, .decoded []⟩
        (fun _ => .permanent "bad metadata")).dlqRecords.map
          (fun d => d.retryCount) = [0] ∧
    (consume_step ⟨"audit-group", 3, 2, 60⟩
        ⟨"crm.customer.created", 0, 100, .decoded []⟩
        (fun _ => .permanent "bad metadata")).committed = false := by decide

/-- C3: the code evaluated at the failing input.  With tenants A (id 0,
root), B (id 1, child of A), C (id 2, child of B), a COMPANY_ADMIN of A
gets `visible_company_ids = [B, C]`: `get_visible_company_ids` calls
`get_descendant_ids`, which excludes the own company — the claimed set
{A, B, C} (which `get_visibility_scope` would give, and which the
function's own docstring and test demand) does not contain A. -/
theorem claim_C3_code_eval :
    get_visible_company_ids [⟨0, none⟩, ⟨1, some 0⟩, ⟨2, some 1⟩]
        ⟨"COMPANY_ADMIN", some 0⟩ = [1, 2] ∧
    (0 : Nat) ∉ get_visible_company_ids [⟨0, none⟩, ⟨1, some 0⟩, ⟨2, some 1⟩]
        ⟨"COMPANY_ADMIN", some 0⟩ ∧
    get_visibility_scope [⟨0, none⟩, ⟨1, some 0⟩, ⟨2, some 1⟩] 0 = [0, 1, 2] := by
  decide

/-- C4: every token the identity service issues carries no
`visible_company_ids` claim, so `get_user_from_token` authenticates it
(given a well-formed UUID `user_id` and, when present, a well-formed
`company_id`, which `str(user.id)` / `str(user.company.id)` guarantee)
with an EMPTY `visible_company_ids` list, whatever the role or tenant. -/
theorem claim_C4_thm (isUuid : String → Bool) (u : TokenUser) (e i : Int)
    (h1 : isUuid u.idStr = true) (h2 : u.idStr ≠ "")
    (h3 : ∀ c, u.companyIdStr = some c → c ≠ "" → isUuid c = true) :
    get_user_from_payload isUuid (create_jwt_payload u e i) =
      .authenticated u.idStr (some u.email) u.role u.companyIdStr [] := by
  have h2b : (u.idStr == "") = false := by simpa using h2
  rcases hc : u.companyIdStr with _ | c
  · simp [get_user_from_payload, create_jwt_payload, jget, List.lookup, h1,
      h2b, hc]
  · by_cases hce : c = ""
    · simp [get_user_from_payload, create_jwt_payload, jget, List.lookup, h1,
        h2b, hc, hce]
    · have hcb : (c == "") = false := by simpa using hce
      have hcu : isUuid c = true := h3 c hc hce
      simp [get_user_from_payload, create_jwt_payload, jget, List.lookup, h1,
        h2b, hc, hcb, hcu]

/-- C4, witness: a concrete issued token (COMPANY_ADMIN with a company)
decodes to an authenticated principal with empty `visible_company_ids`. -/
theorem claim_C4_witness :
    get_user_from_payload (fun _ => true)
        (create_jwt_payload ⟨"u-1", "a@b.c", "COMPANY_ADMIN", some "co-1"⟩
          1700086400 1700000000) =
      .authenticated "u-1" (some "a@b.c") "COMPANY_ADMIN" (some "co-1") [] :=
  claim_C4_thm (fun _ => true) ⟨"u-1", "a@b.c", "COMPANY_ADMIN", some "co-1"⟩
    1700086400 1700000000 rfl (by decide) (fun _ _ _ => rfl)

/-- C5: the code evaluated at the failing input.  A polled record whose
body is not valid JSON never reaches `_process_with_retry`: `json.loads`
raises inside the outer try of `start`, whose `except Exception` merely
logs.  The handler is not invoked, NO DLQ record is produced (so it is not
treated as `Permanent`), and the offset is not committed — the message is
not dead-lettered, contrary to the claim. -/
theorem claim_C5_code_eval :
    consume_step ⟨"audit-service-group", 3, 2, 60⟩
        ⟨"crm.customer.created", 0, 100, .malformed⟩ (fun _ => .ok) =
      { committed := false, handlerInvocations := 0, dlqRecords := []
        metrics := ⟨0, 0, 0, 0⟩ } := rfl

/-- C6: for every message and handler the handler runs at most
`max_retries + 1` times; and in the spec's concrete scenario
(`max_retries = 2`, backoff base 0.1, a handler that always raises
`Retryable`) the handler runs exactly 3 times, exactly one DLQ record is
produced and it carries `retry_count = 2`, and the counters finish at
`retried = 3`, `dlq = 1`, `processed = 0` (and `failed = 0`). -/
theorem claim_C6_thm :
    (∀ (cfg : ConsumerCfg) (value : PyDict) (h : Handler),
       (process_with_retry cfg value h).invocations ≤ cfg.maxRetries + 1) ∧
    (process_with_retry ⟨"test-group", 2, 1/10, 60⟩
        [("_topic", .jstr "test.topic")]
        (fun _ => .retryable "Always fails")).invocations = 3 ∧
    (process_with_retry ⟨"test-group", 2, 1/10, 60⟩
        [("_topic", .jstr "test.topic")]
        (fun _ => .retryable "Always fails")).dlqRecords.map
          (fun d => d.retryCount) = [2] ∧
    (process_with_retry ⟨"test-group", 2, 1/10, 60⟩
        [("_topic", .jstr "test.topic")]
        (fun _ => .retryable "Always fails")).metrics = ⟨0, 3, 0, 1⟩ :=
  ⟨fun cfg value h => runAttempts_invocations_le cfg value h _ 0,
   by decide, by decide, by decide⟩

/-- C7, counterexample: with `backoff_base = 2`, `backoff_cap = 60` (the
constructor defaults) and `max_retries = 6`, the sleep before the 6th
retry is the capped 60 seconds, which is strictly BELOW
`backoff_base · 2^(6-1) = 64` — the claim's "hence at least
backoff_base·2^(i-1)" fails as soon as the exponential passes the cap. -/
theorem claim_C7_counterexample :
    (process_with_retry ⟨"g", 6, 2, 60⟩ []
        (fun _ => .retryable "e")).sleeps.get? 5 = some 60 ∧
    (60 : ℚ) < 2 * 2 ^ 5 := by
  constructor
  · norm_num [process_with_retry, runAttempts, backoffOf]
  · norm_num

/-- C7, amended: the sleep before the i-th retry (0-indexed here: the
`j`-th element of the sleep sequence precedes retry `j+1`) is exactly
`min(backoff_base·2^j, backoff_cap)`; hence it is at most `backoff_cap`,
and it is at least `backoff_base·2^j` WHENEVER that exponential does not
exceed the cap. -/
theorem claim_C7_amended_thm (cfg : ConsumerCfg) (value : PyDict)
    (h : Handler) (j : Nat) (s : ℚ)
    (hs : (process_with_retry cfg value h).sleeps.get? j = some s) :
    s = min (cfg.retryBackoffBase * 2 ^ j) cfg.retryBackoffMax ∧
    s ≤ cfg.retryBackoffMax ∧
    (cfg.retryBackoffBase * 2 ^ j ≤ cfg.retryBackoffMax →
      cfg.retryBackoffBase * 2 ^ j ≤ s) := by
  obtain ⟨k, hk⟩ := runAttempts_sleeps_range cfg value h (cfg.maxRetries + 1) 0
  rw [process_with_retry, hk, List.get?_map] at hs
  have hjk : j < k := by
    by_contra hge
    have hnone : (List.range' 0 k).get? j = none := by
      apply List.get?_eq_none.mpr
      simpa using Nat.le_of_not_lt hge
    rw [hnone] at hs
    cases hs
  rw [List.get?_range' _ _ hjk] at hs
  have hsb : s = backoffOf cfg j := by simpa using hs.symm
  have hmin : s = min (cfg.retryBackoffBase * 2 ^ j) cfg.retryBackoffMax := by
    rw [hsb, backoffOf, min_def]
  refine ⟨hmin, ?_, ?_⟩
  · rw [hmin]; exact min_le_right _ _
  · intro hle; rw [hmin, min_eq_left hle]

/-- C7, witness: with base 2, cap 60 and one allowed retry, the single
sleep is 2 seconds and satisfies the amended bounds. -/
theorem claim_C7_witness :
    (process_with_retry ⟨"g", 1, 2, 60⟩ []
        (fun _ => .retryable "e")).sleeps.get? 0 = some 2 ∧
    ((2 : ℚ) = min ((2 : ℚ) * 2 ^ 0) 60 ∧ (2 : ℚ) ≤ 60 ∧
      ((2 : ℚ) * 2 ^ 0 ≤ 60 → (2 : ℚ) * 2 ^ 0 ≤ 2)) :=
  ⟨by norm_num [process_with_retry, runAttempts, backoffOf],
   claim_C7_amended_thm ⟨"g", 1, 2, 60⟩ [] (fun _ => .retryable "e") 0 2
     (by norm_num [process_with_retry, runAttempts, backoffOf])⟩

/-- C8: the audit handler is idempotent in the message coordinates — when
the extracted `(topic, partition, offset)` already appears in the audit
store, `handle_event` succeeds and leaves the store exactly as it was, so
the durable side effect happens at most once however often the message is
replayed. -/
theorem claim_C8_thm (store : List AuditRow) (event : PyDict)
    (t : String) (p o : Int)
    (ht : jAsStr (jgetD event "_topic" (.jstr "unknown")) = some t)
    (hp : jAsInt (jgetD event "_partition" (.jint 0)) = some p)
    (ho : jAsInt (jgetD event "_offset" (.jint 0)) = some o)
    (hmem : store.any (fun r =>
      r.kafkaTopic == t && r.kafkaPartition == p && r.kafkaOffset == o)
        = true) :
    handle_event store event = .ok store := by
  rw [handle_event]
  simp only [ht, hp, ho, hmem]
  simp

/-- C8, witness: the spec's concrete replay — a store already holding
`(topic="crm.customer.created", partition=0, offset=100)` is unchanged by
re-processing an event with exactly those coordinates. -/
theorem claim_C8_witness :
    handle_event
        [⟨.jstr "crm.customer.created", [], none, "crm.customer.created",
          0, 100⟩]
        [("event_type", .jstr "crm.customer.created"),
         ("_topic", .jstr "crm.customer.created"),
         ("_partition", .jint 0), ("_offset", .jint 100)] =
      .ok [⟨.jstr "crm.customer.created", [], none, "crm.customer.created",
            0, 100⟩] :=
  claim_C8_thm _ _ "crm.customer.created" 0 100 rfl rfl rfl (by decide)

/-- C9: the code evaluated at the failing input.  For an existing customer
and the valid-JSON body `{"longitude": 1.0}` (latitude missing),
`data.get('latitude')` yields `None`, `float(None)` raises `TypeError`,
which is not in the caught `(ValueError, KeyError, JSONDecodeError)`
tuple, so the view raises instead of answering 400.  The other claimed
cases do hold: absent record → 404, non-JSON body → 400, well-formed body
→ coordinates and timestamp set with 200. -/
theorem claim_C9_code_eval :
    (update_customer_coordinates [⟨1, none, none, false⟩] 1
        (.json [("longitude", .jfloat 1)])).1 = .uncaughtTypeError ∧
    ViewOutcome.uncaughtTypeError ≠ .response 400 ∧
    (update_customer_coordinates [⟨1, none, none, false⟩] 2
        (.json [("latitude", .jfloat 1), ("longitude", .jfloat 1)])).1 =
      .response 404 ∧
    (update_customer_coordinates [⟨1, none, none, false⟩] 1 .notJson).1 =
      .response 400 ∧
    update_customer_coordinates [⟨1, none, none, false⟩] 1
        (.json [("latitude", .jfloat 2), ("longitude", .jfloat 3)]) =
      (.response 200, [⟨1, some 2, some 3, true⟩]) := by decide

/-- C10: every customer the create-customer mutation persists satisfies
`created_by_tenant ∈ visible_to` — the creating user's company ID is
seeded into `visibility_ids` before any input IDs are appended, and
deduplication keeps it. -/
theorem claim_C10_thm (user : MutationUser) (input : CreateInput)
    (c : CreatedCustomer)
    (h : createCustomer_mutate user input = .ok c) :
    c.createdByCompanyId ∈ c.visibleToCompanyIds := by
  rw [createCustomer_mutate] at h
  split at h
  · cases h
  · split at h
    · cases h
    · split at h
      · cases h
      · rw [Except.ok.injEq] at h
        subst h
        simp [List.mem_dedup]

/-- C10, witness: a concrete creation (company "A", extra visibility
"B") yields a record whose creator company is in its visibility list. -/
theorem claim_C10_witness :
    (⟨"n", "A", ["A", "B"]⟩ : CreatedCustomer).createdByCompanyId ∈
      (⟨"n", "A", ["A", "B"]⟩ : CreatedCustomer).visibleToCompanyIds :=
  claim_C10_thm ⟨true, some "A"⟩ ⟨"n", some ["B"]⟩ ⟨"n", "A", ["A", "B"]⟩ rfl
